import Mathlib

/-!
Shallow embedding of the docker-monitor repository (Go) and proofs about it.

Scope of the embedding:
 - `pkg/stats/stats.go`: `ContainerStat`, `GetContainerStats` (its pure decode
   tail), `calculateCPUPercentage`, `FetchContainerStatsParallel`.
 - `pkg/container/container.go`: `FindContainer`.
 - `pkg/utils/utils.go`: the partial operations of `PrintStatsHorizontally`
   and `PrintStatsVertically` (string slicing / first-name indexing).
 - `main.go`: the render step of the poll loop over a stats batch.

Modelling conventions:
 - Go `float64` is modelled by `GoFloat`, an extended-rational type with the
   IEEE-754 special values `+Inf`, `-Inf`, `NaN`.  Finite arithmetic is exact
   rational arithmetic (rounding is abstracted away; every concrete value in
   the development is exactly representable in binary64, and signed zero is
   collapsed to `0`, matching the positive zeros produced by the program).
 - Go `uint64` counters are modelled by `Nat` (the program never overflows
   them and only converts them to `float64`).
 - Go strings are Lean `String`s; `strings.HasPrefix` is byte-wise prefix,
   modelled as character-list prefix on `String.data` (identifiers and names
   here are ASCII, where the two coincide).
 - The concurrency of `FetchContainerStatsParallel` is modelled by
   quantifying over an arbitrary arrival order of the per-container messages:
   the channel delivers some permutation of the messages produced by the
   spawned goroutines, and the collector folds that permutation into a
   pre-sized result slice.
 - The Docker client calls (`cli.ContainerStats` plus the JSON decode) are
   abstracted as a `fetch : String → Except String StatsResponse` parameter;
   errors from either step are `Except.error`, exactly as both are handled
   identically by the Go code.
-/

namespace DockerMonitor

/-- Go `float64`: a finite rational, a signed infinity (`pos = true` is
`+Inf`), or `NaN`. -/
inductive GoFloat where
  | fin (q : ℚ)
  | inf (pos : Bool)
  | nan
deriving Repr, DecidableEq, Inhabited

/-- IEEE-754 subtraction on `GoFloat` (exact in the finite case). -/
def GoFloat.sub : GoFloat → GoFloat → GoFloat
  | .fin a, .fin b => .fin (a - b)
  | .fin _, .inf b => .inf (!b)
  | .inf a, .fin _ => .inf a
  | .inf a, .inf b => if a = b then .nan else .inf a
  | _, _ => .nan

/-- IEEE-754 multiplication on `GoFloat` (exact in the finite case). -/
def GoFloat.mul : GoFloat → GoFloat → GoFloat
  | .fin a, .fin b => .fin (a * b)
  | .fin a, .inf b => if a = 0 then .nan else .inf (decide (0 < a) == b)
  | .inf a, .fin b => if b = 0 then .nan else .inf (a == decide (0 < b))
  | .inf a, .inf b => .inf (a == b)
  | _, _ => .nan

/-- IEEE-754 division on `GoFloat` (exact in the finite case; finite zero is
positive zero, as produced by the program). -/
def GoFloat.div : GoFloat → GoFloat → GoFloat
  | .fin a, .fin b =>
      if b = 0 then (if a = 0 then .nan else .inf (decide (0 < a)))
      else .fin (a / b)
  | .fin _, .inf _ => .fin 0
  | .inf a, .fin b => .inf (a == decide (0 ≤ b))
  | _, _ => .nan

/-- `types.Container`: the fields of the Docker container listing the program
reads (identifier, name list, lifecycle state).  The Go zero value is
`⟨"", [], ""⟩` (`Names` is a nil slice). -/
structure Container where
  ID : String
  Names : List String
  State : String
deriving Repr, DecidableEq, Inhabited

/-- `container.StatsResponse.CPUStats.CPUUsage`: cumulative total CPU time and
the per-core breakdown (empty when the platform does not report one). -/
structure CPUUsage where
  TotalUsage : ℕ
  PercpuUsage : List ℕ
deriving Repr, DecidableEq, Inhabited

/-- `container.StatsResponse.CPUStats`: container CPU usage plus cumulative
system-wide CPU time. -/
structure CPUStats where
  CPUUsage : DockerMonitor.CPUUsage
  SystemUsage : ℕ
deriving Repr, DecidableEq, Inhabited

/-- `container.StatsResponse.MemoryStats`: memory usage and limit in bytes. -/
structure MemoryStats where
  Usage : ℕ
  Limit : ℕ
deriving Repr, DecidableEq, Inhabited

/-- One entry of `container.StatsResponse.Networks`: received and transmitted
byte counters of one interface. -/
structure NetworkStats where
  RxBytes : ℕ
  TxBytes : ℕ
deriving Repr, DecidableEq, Inhabited

/-- `container.StatsResponse`: the raw stats snapshot decoded from the Docker
API, restricted to the fields the program reads.  `Networks` is the Go map
`map[string]NetworkStats`, modelled as an association list. -/
structure StatsResponse where
  CPUStats : DockerMonitor.CPUStats
  PreCPUStats : DockerMonitor.CPUStats
  MemoryStats : DockerMonitor.MemoryStats
  Networks : List (String × NetworkStats)
deriving Repr, DecidableEq, Inhabited

/-- Go map indexing `m[key]`: the stored value when the key is present, the
zero value otherwise (`stats.go` line 63-64 indexes `Networks["eth0"]`). -/
def lookupNetwork (nets : List (String × NetworkStats)) (key : String) : NetworkStats :=
  match nets.find? (fun p => p.1 == key) with
  | some p => p.2
  | none => { RxBytes := 0, TxBytes := 0 }

/-- The anonymous stats record of `stats.go` (the `Stats` field of
`ContainerStat` and the return of `GetContainerStats`).  The Go zero value is
all-zero. -/
structure Stats where
  CPUPercentage : GoFloat
  MemoryUsage : GoFloat
  MemoryLimit : GoFloat
  NetworkRx : GoFloat
  NetworkTx : GoFloat
deriving Repr, DecidableEq, Inhabited

/-- `stats.go` lines 81-91, `calculateCPUPercentage`: per-core count with
fallback 7 when the per-core list is empty, then
`(cpuDelta / systemDelta) * perCpuUsageLen * 100.0` in `float64`
arithmetic; there is no guard on `systemDelta == 0`. -/
def calculateCPUPercentage (stats : StatsResponse) : GoFloat :=
  let perCpuUsageLen := stats.CPUStats.CPUUsage.PercpuUsage.length
  let perCpuUsageLen := if perCpuUsageLen = 0 then 7 else perCpuUsageLen
  let cpuDelta := GoFloat.sub (.fin stats.CPUStats.CPUUsage.TotalUsage)
      (.fin stats.PreCPUStats.CPUUsage.TotalUsage)
  let systemDelta := GoFloat.sub (.fin stats.CPUStats.SystemUsage)
      (.fin stats.PreCPUStats.SystemUsage)
  GoFloat.mul (GoFloat.mul (GoFloat.div cpuDelta systemDelta) (.fin perCpuUsageLen))
    (.fin 100)

/-- The spec's `cpuPercentage(currentCPUTime, previousCPUTime,
currentSystemTime, previousSystemTime, perCoreCount)` test harness: builds a
`StatsResponse` whose per-core list has the given length and applies
`calculateCPUPercentage` to it. -/
def cpuPercentage (currentCPUTime previousCPUTime currentSystemTime previousSystemTime
    perCoreCount : ℕ) : GoFloat :=
  calculateCPUPercentage
    { CPUStats := { CPUUsage := { TotalUsage := currentCPUTime,
                                  PercpuUsage := List.replicate perCoreCount 0 },
                    SystemUsage := currentSystemTime }
      PreCPUStats := { CPUUsage := { TotalUsage := previousCPUTime, PercpuUsage := [] },
                       SystemUsage := previousSystemTime }
      MemoryStats := { Usage := 0, Limit := 0 }
      Networks := [] }

/-- `stats.go` lines 60-78, the pure decode tail of `GetContainerStats`:
CPU percentage via `calculateCPUPercentage`, memory usage/limit divided by
1024 twice, and the `eth0` entry's byte counters divided by 1024 twice. -/
def decodeStats (statsJSON : StatsResponse) : Stats :=
  let cpuPercent := calculateCPUPercentage statsJSON
  let memoryUsage := GoFloat.div (GoFloat.div (.fin statsJSON.MemoryStats.Usage) (.fin 1024))
      (.fin 1024)
  let memoryLimit := GoFloat.div (GoFloat.div (.fin statsJSON.MemoryStats.Limit) (.fin 1024))
      (.fin 1024)
  let networkRx := GoFloat.div
      (GoFloat.div (.fin (lookupNetwork statsJSON.Networks "eth0").RxBytes) (.fin 1024))
      (.fin 1024)
  let networkTx := GoFloat.div
      (GoFloat.div (.fin (lookupNetwork statsJSON.Networks "eth0").TxBytes) (.fin 1024))
      (.fin 1024)
  { CPUPercentage := cpuPercent
    MemoryUsage := memoryUsage
    MemoryLimit := memoryLimit
    NetworkRx := networkRx
    NetworkTx := networkTx }

/-- `stats.go` lines 25-79, `GetContainerStats`: the Docker API call and the
JSON decode are abstracted as `fetch` (either failing step yields
`Except.error`, both are propagated identically by the Go code); a successful
snapshot is decoded by `decodeStats`. -/
def GetContainerStats (fetch : String → Except String StatsResponse)
    (containerID : String) : Except String Stats :=
  match fetch containerID with
  | .error e => .error e
  | .ok statsJSON => .ok (decodeStats statsJSON)

/-- `stats.go` lines 14-23, `ContainerStat`: a container reference paired with
its decoded stats.  The Go zero value pairs the zero container with the
all-zero stats record. -/
structure ContainerStat where
  Container : DockerMonitor.Container
  Stats : DockerMonitor.Stats
deriving Repr, DecidableEq, Inhabited

/-- `stats.go` lines 102-116: the body of the goroutine spawned for input
position `i`.  It sends `(i, ContainerStat.mk c stats)` on `statsChan` when
`GetContainerStats` succeeds and sends nothing when it fails (the error is
only logged). -/
def goroutineMsg (fetch : String → Except String StatsResponse)
    (containers : List Container) (i : ℕ) : Option (ℕ × ContainerStat) :=
  match containers[i]? with
  | none => none
  | some c =>
    match GetContainerStats fetch c.ID with
    | .error _ => none
    | .ok st => some (i, { Container := c, Stats := st })

/-- `stats.go` lines 100-117: the multiset of messages sent on `statsChan`,
one goroutine per input position (`for index, _container := range
containers`). -/
def fetchMessages (fetch : String → Except String StatsResponse)
    (containers : List Container) : List (ℕ × ContainerStat) :=
  (List.range containers.length).filterMap (goroutineMsg fetch containers)

/-- `stats.go` lines 124-130: the collection loop.  A result slice of length
`n` is pre-allocated at its zero value and each received `(index, stat)`
message is written at its original index. -/
def collectResults (n : ℕ) (msgs : List (ℕ × ContainerStat)) : List ContainerStat :=
  msgs.foldl (fun acc m => acc.set m.1 m.2) (List.replicate n default)

/-- `stats.go` lines 93-133, `FetchContainerStatsParallel`.  The channel
delivers the goroutines' messages in an arbitrary completion order `arrival`
(constrained in the theorems to be a permutation of
`fetchMessages fetch containers`); the collector drains the channel into the
pre-sized result slice.  The function always returns a full slice: no error
value leaves the collector. -/
def FetchContainerStatsParallel (fetch : String → Except String StatsResponse)
    (containers : List Container) (arrival : List (ℕ × ContainerStat)) :
    List ContainerStat :=
  collectResults containers.length arrival

/-- The value `FetchContainerStatsParallel` leaves in the slot of container
`c`: the fetched pair on success, the zero-value `ContainerStat` when the
fetch failed (the slot of the pre-allocated slice is never written). -/
def expectedSlot (fetch : String → Except String StatsResponse) (c : Container) :
    ContainerStat :=
  match GetContainerStats fetch c.ID with
  | .error _ => default
  | .ok st => { Container := c, Stats := st }

/-- `strings.HasPrefix(s, pre)` of `container.go` line 23, as character-list
prefix on the underlying data. -/
def goHasPre (s pre : String) : Bool :=
  pre.data.isPrefixOf s.data

/-- The per-container match of `container.go` lines 21-33: the specifier is a
prefix of the container ID, or equals a stored name directly or after
prepending `"/"`. -/
def matchesSpecifier (containerSpecifier : String) (c : Container) : Bool :=
  goHasPre c.ID containerSpecifier ||
    c.Names.any fun name => name == containerSpecifier || name == "/" ++ containerSpecifier

/-- `container.go` line 14-16: `FindContainer` lists with
`container.ListOptions{All: true}`, i.e. stopped containers are included in
the scanned listing. -/
structure ListOptions where
  All : Bool
deriving Repr, DecidableEq

/-- The listing options `FindContainer` passes to `cli.ContainerList`. -/
def findContainerListOptions : ListOptions := { All := true }

/-- `container.go` lines 13-36, `FindContainer` on an already-obtained
listing: scan in listing order, return the first container whose ID has the
specifier as a prefix or whose name matches it bare or `"/"`-prefixed;
otherwise a not-found error. -/
def FindContainer (containers : List Container) (containerSpecifier : String) :
    Except String Container :=
  match containers with
  | [] => .error ("container not found: " ++ containerSpecifier)
  | c :: rest =>
    if goHasPre c.ID containerSpecifier then .ok c
    else if c.Names.any
        (fun name => name == containerSpecifier || name == "/" ++ containerSpecifier) then
      .ok c
    else FindContainer rest containerSpecifier

/-- `utils.go` lines 122-153, `PrintStatsHorizontally`, restricted to its two
partial operations (the color formatting of the emitted text is elided):
`c.ID[:12]` panics unless the ID has at least 12 characters, and `c.Names[0]`
panics on an empty name slice.  `none` models a runtime panic; `some`
carries the sliced ID and the first name the row is built from. -/
def printStatsHorizontally (c : Container) (stats : Stats) : Option (String × String) :=
  let maxIdLength := 12
  if maxIdLength ≤ c.ID.length then
    match c.Names with
    | [] => none
    | name :: _ => some (⟨c.ID.data.take maxIdLength⟩, name)
  else none

/-- `utils.go` lines 81-96, `PrintStatsVertically`, restricted to its partial
operation: `c.Names[0]` panics on an empty name slice.  `none` models a
runtime panic; `some` carries the name the block is headed by. -/
def printStatsVertically (c : Container) (stats : Stats) : Option String :=
  match c.Names with
  | [] => none
  | name :: _ => some name

/-- `main.go` lines 120-126: the render step of one poll cycle over the
collected batch, printing each slot horizontally or vertically according to
the layout flag.  `none` models a panic in any slot's rendering aborting the
process. -/
def renderBatch (verticalFlag : Bool) (s : List ContainerStat) :
    Option (List (String × String)) :=
  s.mapM fun stat =>
    if verticalFlag then
      (printStatsVertically stat.Container stat.Stats).map fun n => (n, "")
    else printStatsHorizontally stat.Container stat.Stats

/-! ### Concrete fixtures used for evaluated checks -/

/-- A concrete raw stats snapshot: 2 reported cores, CPU counters 40/20,
system counters 400/200, memory 1 MiB used of 4 MiB, and an `eth0` interface
with 2 MiB received and 3 MiB transmitted. -/
def exResp : StatsResponse :=
  { CPUStats := { CPUUsage := { TotalUsage := 40, PercpuUsage := [0, 0] }, SystemUsage := 400 }
    PreCPUStats := { CPUUsage := { TotalUsage := 20, PercpuUsage := [] }, SystemUsage := 200 }
    MemoryStats := { Usage := 1048576, Limit := 4194304 }
    Networks := [("eth0", { RxBytes := 2097152, TxBytes := 3145728 })] }

/-- A concrete snapshot whose network map has no `eth0` key. -/
def exRespNoEth : StatsResponse :=
  { exResp with Networks := [("lo", { RxBytes := 5242880, TxBytes := 6291456 })] }

/-- Three concrete containers with Docker-style (≥ 12 character) identifiers. -/
def cAlpha : Container := { ID := "aaaaaaaaaaaa1111", Names := ["/alpha"], State := "running" }

/-- Second fixture container; its stats fetch is made to fail below. -/
def cBeta : Container := { ID := "bbbbbbbbbbbb2222", Names := ["/beta"], State := "running" }

/-- Third fixture container. -/
def cGamma : Container := { ID := "cccccccccccc3333", Names := ["/gamma"], State := "running" }

/-- The fixture listing. -/
def exContainers : List Container := [cAlpha, cBeta, cGamma]

/-- A fetch that fails for `cBeta` and succeeds with `exResp` otherwise. -/
def exFetch : String → Except String StatsResponse :=
  fun id => if id = "bbbbbbbbbbbb2222" then .error "fetch failed" else .ok exResp

/-- A fetch that always succeeds with `exResp`. -/
def exFetchOk : String → Except String StatsResponse := fun _ => .ok exResp

/-- Two containers whose identifiers share the prefix `abc1`; `cPreB`'s full
identifier is a prefix of nothing, but is itself extended by `cPreA`'s. -/
def cPreA : Container := { ID := "abc12", Names := ["/x"], State := "running" }

/-- The later-listed container whose full identifier `abc1` also prefixes
`cPreA`'s identifier. -/
def cPreB : Container := { ID := "abc1", Names := ["/y"], State := "running" }

/-! ### Helper lemmas about the parallel collector -/

/-- Characterisation of a goroutine's message: it carries the goroutine's own
input position, that position's container, and the successfully fetched
stats. -/
theorem goroutineMsg_eq_some {fetch : String → Except String StatsResponse}
    {containers : List Container} {i : ℕ} {m : ℕ × ContainerStat} :
    goroutineMsg fetch containers i = some m ↔
      ∃ c st, containers[i]? = some c ∧ GetContainerStats fetch c.ID = Except.ok st ∧
        m = (i, { Container := c, Stats := st }) := by
  cases hc : containers[i]? with
  | none => simp [goroutineMsg, hc]
  | some c =>
    cases hg : GetContainerStats fetch c.ID with
    | error e =>
      simp only [goroutineMsg, hc, hg]
      constructor
      · intro h
        cases h
      · rintro ⟨c', st', hc', hg', -⟩
        obtain rfl : c = c' := Option.some_inj.mp hc'
        rw [hg] at hg'
        cases hg'
    | ok st =>
      simp only [goroutineMsg, hc, hg]
      constructor
      · intro h
        exact ⟨c, st, rfl, hg, (Option.some_inj.mp h).symm⟩
      · rintro ⟨c', st', hc', hg', rfl⟩
        obtain rfl : c = c' := Option.some_inj.mp hc'
        obtain rfl : st = st' := Except.ok.inj (hg.symm.trans hg')
        rfl

/-- Membership in the sent messages: `(j, v)` is sent iff position `j` holds a
container whose fetch succeeds with `v`'s stats. -/
theorem mem_fetchMessages {fetch : String → Except String StatsResponse}
    {containers : List Container} {j : ℕ} {v : ContainerStat} :
    (j, v) ∈ fetchMessages fetch containers ↔
      ∃ c st, containers[j]? = some c ∧ GetContainerStats fetch c.ID = Except.ok st ∧
        v = { Container := c, Stats := st } := by
  unfold fetchMessages
  rw [List.mem_filterMap]
  constructor
  · rintro ⟨i, _hi, hfi⟩
    obtain ⟨c, st, hc, hg, hm⟩ := goroutineMsg_eq_some.mp hfi
    rw [Prod.mk.injEq] at hm
    obtain ⟨rfl, rfl⟩ := hm
    exact ⟨c, st, hc, hg, rfl⟩
  · rintro ⟨c, st, hc, hg, rfl⟩
    refine ⟨j, ?_, ?_⟩
    · rw [List.mem_range]
      by_contra hj
      rw [List.getElem?_eq_none (by omega)] at hc
      cases hc
    · exact goroutineMsg_eq_some.mpr ⟨c, st, hc, hg, rfl⟩

/-- The keys of the sent messages are pairwise distinct: each goroutine sends
at most one message, tagged with its own position. -/
theorem pairwise_keys_fetchMessages (fetch : String → Except String StatsResponse)
    (containers : List Container) :
    (fetchMessages fetch containers).Pairwise fun a b => a.1 ≠ b.1 := by
  unfold fetchMessages
  refine List.Pairwise.filterMap _ ?_ (List.pairwise_lt_range containers.length)
  intro i i' hlt b hb b' hb'
  obtain ⟨c, st, _, _, rfl⟩ := goroutineMsg_eq_some.mp hb
  obtain ⟨c', st', _, _, rfl⟩ := goroutineMsg_eq_some.mp hb'
  exact Nat.ne_of_lt hlt

/-- Draining a message list with pairwise-distinct keys into a slice: slot `j`
receives the unique message keyed `j` when there is one (and `j` is in range),
and keeps its initial value otherwise. -/
theorem foldl_set_getElem? (msgs : List (ℕ × ContainerStat))
    (hk : msgs.Pairwise fun a b => a.1 ≠ b.1) (init : List ContainerStat) (j : ℕ) :
    (msgs.foldl (fun acc m => acc.set m.1 m.2) init)[j]? =
      match msgs.find? (fun m => m.1 == j) with
      | some m => if j < init.length then some m.2 else none
      | none => init[j]? := by
  induction msgs generalizing init with
  | nil => simp
  | cons hd t ih =>
    rw [List.pairwise_cons] at hk
    obtain ⟨hhd, ht⟩ := hk
    by_cases hkj : hd.1 = j
    · have hfind : (hd :: t).find? (fun m => m.1 == j) = some hd :=
        List.find?_cons_of_pos _ (by simp [hkj])
      have hnone : t.find? (fun m => m.1 == j) = none := by
        rw [List.find?_eq_none]
        intro x hx
        simp only [beq_iff_eq]
        exact fun hxj => (hhd x hx) (hkj.trans hxj.symm)
      simp only [List.foldl_cons, ih ht, hfind, hnone, List.length_set]
      subst hkj
      by_cases hlt : hd.1 < init.length
      · rw [List.getElem?_set_self hlt]
        simp [hlt]
      · rw [List.getElem?_eq_none (by rw [List.length_set]; omega)]
        simp [hlt]
    · have hfind : (hd :: t).find? (fun m => m.1 == j) = t.find? (fun m => m.1 == j) :=
        List.find?_cons_of_neg _ (by simp [hkj])
      simp only [List.foldl_cons, ih ht, hfind, List.length_set,
        List.getElem?_set_ne hkj]

/-- The central correctness fact of `FetchContainerStatsParallel`: whatever
order the goroutines' messages arrive in, the returned slice is the input
list mapped slot-wise through `expectedSlot`. -/
theorem fetchParallel_eq_map (fetch : String → Except String StatsResponse)
    (containers : List Container) (arrival : List (ℕ × ContainerStat))
    (h : arrival.Perm (fetchMessages fetch containers)) :
    FetchContainerStatsParallel fetch containers arrival =
      containers.map (expectedSlot fetch) := by
  have hk : arrival.Pairwise (fun a b => a.1 ≠ b.1) :=
    (h.pairwise_iff fun hxy => Ne.symm hxy).mpr
      (pairwise_keys_fetchMessages fetch containers)
  apply List.ext_getElem?
  intro j
  unfold FetchContainerStatsParallel collectResults
  rw [foldl_set_getElem? arrival hk _ j, List.getElem?_map]
  cases hf : arrival.find? (fun m => m.1 == j) with
  | some m =>
    obtain ⟨k, v⟩ := m
    have hpm : k = j := by simpa using List.find?_some hf
    subst hpm
    have hmem : (k, v) ∈ fetchMessages fetch containers :=
      h.mem_iff.mp (List.mem_of_find?_eq_some hf)
    obtain ⟨c, st, hc, hg, rfl⟩ := mem_fetchMessages.mp hmem
    have hj : k < containers.length := by
      rcases List.getElem?_eq_some_iff.mp hc with ⟨hlt, _⟩
      exact hlt
    rw [hc]
    simp only [List.length_replicate, hj, if_true, Option.map_some']
    unfold expectedSlot
    rw [hg]
  | none =>
    have hnone : ∀ x ∈ arrival, x.1 ≠ j := by
      intro x hx
      have := List.find?_eq_none.mp hf x hx
      simpa using this
    cases hc : containers[j]? with
    | none =>
      have hj : containers.length ≤ j := List.getElem?_eq_none_iff.mp hc
      rw [List.getElem?_eq_none (by simpa using hj)]
      rfl
    | some c =>
      have hj : j < containers.length := by
        rcases List.getElem?_eq_some_iff.mp hc with ⟨hlt, _⟩
        exact hlt
      cases hg : GetContainerStats fetch c.ID with
      | ok st =>
        exfalso
        have : (j, ContainerStat.mk c st) ∈ fetchMessages fetch containers :=
          mem_fetchMessages.mpr ⟨c, st, hc, hg, rfl⟩
        exact hnone _ (h.mem_iff.mpr this) rfl
      | error e =>
        rw [List.getElem?_replicate, if_pos hj, Option.map_some']
        unfold expectedSlot
        rw [hg]

/-! ### Helper lemmas about container resolution -/

/-- The empty specifier is a prefix of every identifier. -/
theorem goHasPre_empty (s : String) : goHasPre s "" = true := by
  show List.isPrefixOf "".data s.data = true
  rw [show "".data = [] from rfl]
  exact List.isPrefixOf_nil_left

/-- `FindContainer`'s scan is first-match search over the per-container
predicate `matchesSpecifier`. -/
theorem findContainer_eq_find? (containers : List Container) (spec : String) :
    FindContainer containers spec =
      match containers.find? (fun c => matchesSpecifier spec c) with
      | some c => Except.ok c
      | none => Except.error ("container not found: " ++ spec) := by
  induction containers with
  | nil => rfl
  | cons c rest ih =>
    by_cases h1 : goHasPre c.ID spec = true
    · have hm : matchesSpecifier spec c = true := by
        simp [matchesSpecifier, h1]
      rw [List.find?_cons_of_pos _ hm]
      show (if goHasPre c.ID spec then Except.ok c else _) = Except.ok c
      rw [if_pos h1]
    · by_cases h2 : (c.Names.any fun name => name == spec || name == "/" ++ spec) = true
      · have hm : matchesSpecifier spec c = true := by
          simp [matchesSpecifier, h2]
        rw [List.find?_cons_of_pos _ hm]
        show (if goHasPre c.ID spec then Except.ok c
          else if c.Names.any fun name => name == spec || name == "/" ++ spec then Except.ok c
          else FindContainer rest spec) = Except.ok c
        rw [if_neg h1, if_pos h2]
      · have hm : ¬ matchesSpecifier spec c = true := by
          simp [matchesSpecifier, h1, h2]
        rw [List.find?_cons_of_neg _ hm]
        show (if goHasPre c.ID spec then Except.ok c
          else if c.Names.any fun name => name == spec || name == "/" ++ spec then Except.ok c
          else FindContainer rest spec) = _
        rw [if_neg h1, if_neg h2, ih]

/-- `find?` returns the element at the earliest matching position. -/
theorem find?_at_first_match {α : Type} {p : α → Bool} (l : List α) (i : ℕ) (a : α)
    (ha : l[i]? = some a) (hp : p a = true)
    (hfirst : ∀ j b, j < i → l[j]? = some b → p b = false) :
    l.find? p = some a := by
  induction l generalizing i with
  | nil => cases ha
  | cons hd t ih =>
    cases i with
    | zero =>
      obtain rfl : hd = a := Option.some_inj.mp (by simpa using ha)
      exact List.find?_cons_of_pos _ hp
    | succ n =>
      have hhd : p hd = false := hfirst 0 hd (Nat.succ_pos n) (by simp)
      rw [List.find?_cons_of_neg _ (by simp [hhd])]
      exact ih n (by simpa using ha)
        (fun j b hj hb => hfirst (j + 1) b (by omega) (by simpa using hb))

/-! ### Claim theorems -/

/-- C1: for every input container list of length N (N = 0 included) and every
completion order of the goroutines' messages, `FetchContainerStatsParallel`
returns a slice of exactly length N whose i-th slot corresponds to the i-th
input container; for the empty list it returns the empty slice, no goroutine
message exists, and (by the return type, which carries no error) no error is
reported. -/
theorem fetchParallel_ordering (fetch : String → Except String StatsResponse)
    (containers : List Container) (arrival : List (ℕ × ContainerStat))
    (h : arrival.Perm (fetchMessages fetch containers)) :
    (FetchContainerStatsParallel fetch containers arrival).length = containers.length ∧
    (∀ (i : ℕ) (c : Container), containers[i]? = some c →
      (FetchContainerStatsParallel fetch containers arrival)[i]? =
        some (expectedSlot fetch c)) ∧
    (containers = [] →
      FetchContainerStatsParallel fetch containers arrival = [] ∧
      fetchMessages fetch containers = []) := by
  have hmap := fetchParallel_eq_map fetch containers arrival h
  refine ⟨by rw [hmap, List.length_map], ?_, ?_⟩
  · intro i c hc
    rw [hmap, List.getElem?_map, hc, Option.map_some']
  · rintro rfl
    exact ⟨by rw [hmap]; rfl, rfl⟩

/-- Evaluated check of `fetchParallel_ordering` on the three-container fixture
with a reversed (hence non-submission-order) arrival, and on the empty
list. -/
theorem fetchParallel_ordering_check :
    (FetchContainerStatsParallel exFetch exContainers
        (fetchMessages exFetch exContainers).reverse).length = exContainers.length ∧
    (FetchContainerStatsParallel exFetch exContainers
        (fetchMessages exFetch exContainers).reverse)[2]? =
      some (expectedSlot exFetch cGamma) ∧
    FetchContainerStatsParallel exFetch [] [] = [] := by
  obtain ⟨h1, h2, -⟩ :=
    fetchParallel_ordering exFetch exContainers _ (List.reverse_perm _)
  exact ⟨h1, h2 2 cGamma rfl,
    ((fetchParallel_ordering exFetch [] [] (List.Perm.refl _)).2.2 rfl).1⟩

/-- C2: when the fetch for the container at position k fails,
`FetchContainerStatsParallel` still returns a full-length slice whose slot k
is the zero-value `ContainerStat` and whose every other occupied slot is
populated exactly as on the all-success path; the function's return type
carries no error, so no error reaches the caller. -/
theorem fetchParallel_partial_failure (fetch : String → Except String StatsResponse)
    (containers : List Container) (arrival : List (ℕ × ContainerStat))
    (k : ℕ) (c : Container) (e : String)
    (h : arrival.Perm (fetchMessages fetch containers))
    (hk : containers[k]? = some c)
    (he : GetContainerStats fetch c.ID = Except.error e) :
    (FetchContainerStatsParallel fetch containers arrival).length = containers.length ∧
    (FetchContainerStatsParallel fetch containers arrival)[k]? = some default ∧
    (∀ (j : ℕ) (cj : Container), j ≠ k → containers[j]? = some cj →
      (FetchContainerStatsParallel fetch containers arrival)[j]? =
        some (expectedSlot fetch cj)) := by
  have hmap := fetchParallel_eq_map fetch containers arrival h
  refine ⟨by rw [hmap, List.length_map], ?_, ?_⟩
  · rw [hmap, List.getElem?_map, hk, Option.map_some']
    unfold expectedSlot
    rw [he]
  · intro j cj _ hcj
    rw [hmap, List.getElem?_map, hcj, Option.map_some']

/-- Evaluated check of `fetchParallel_partial_failure`: `cBeta`'s fetch fails,
its slot 1 is the zero value, and slots 0 and 2 are populated. -/
theorem fetchParallel_partial_failure_check :
    (FetchContainerStatsParallel exFetch exContainers
        (fetchMessages exFetch exContainers).reverse).length = 3 ∧
    (FetchContainerStatsParallel exFetch exContainers
        (fetchMessages exFetch exContainers).reverse)[1]? = some default ∧
    (FetchContainerStatsParallel exFetch exContainers
        (fetchMessages exFetch exContainers).reverse)[0]? =
      some (expectedSlot exFetch cAlpha) := by
  obtain ⟨h1, h2, h3⟩ :=
    fetchParallel_partial_failure exFetch exContainers _ 1 cBeta "fetch failed"
      (List.reverse_perm _) rfl rfl
  exact ⟨h1, h2, h3 0 cAlpha (by omega) rfl⟩

/-- C9: in a slot whose fetch succeeded the `Container` field is the
corresponding input container unchanged; in a slot whose fetch failed the
`Container` field is the zero-value container reference (empty identifier,
no names), so the failed container's identity is not retained in the batch
result. -/
theorem fetchParallel_container_field (fetch : String → Except String StatsResponse)
    (containers : List Container) (arrival : List (ℕ × ContainerStat))
    (i : ℕ) (c : Container)
    (h : arrival.Perm (fetchMessages fetch containers))
    (hc : containers[i]? = some c) :
    (∀ st, GetContainerStats fetch c.ID = Except.ok st →
      (FetchContainerStatsParallel fetch containers arrival)[i]? =
        some { Container := c, Stats := st }) ∧
    (∀ e, GetContainerStats fetch c.ID = Except.error e →
      (FetchContainerStatsParallel fetch containers arrival)[i]? =
        some { Container := { ID := "", Names := [], State := "" },
               Stats := default }) := by
  have hmap := fetchParallel_eq_map fetch containers arrival h
  constructor
  · intro st hst
    rw [hmap, List.getElem?_map, hc, Option.map_some']
    unfold expectedSlot
    rw [hst]
  · intro e he
    rw [hmap, List.getElem?_map, hc, Option.map_some']
    unfold expectedSlot
    rw [he]
    rfl

/-- Evaluated check of `fetchParallel_container_field`: `cAlpha`'s slot keeps
`cAlpha` itself, `cBeta`'s failed slot holds the zero-value container. -/
theorem fetchParallel_container_field_check :
    (FetchContainerStatsParallel exFetch exContainers
        (fetchMessages exFetch exContainers).reverse)[0]? =
      some { Container := cAlpha, Stats := decodeStats exResp } ∧
    (FetchContainerStatsParallel exFetch exContainers
        (fetchMessages exFetch exContainers).reverse)[1]? =
      some { Container := { ID := "", Names := [], State := "" },
             Stats := default } := by
  refine ⟨?_, ?_⟩
  · exact (fetchParallel_container_field exFetch exContainers _ 0 cAlpha
      (List.reverse_perm _) rfl).1 (decodeStats exResp) rfl
  · exact (fetchParallel_container_field exFetch exContainers _ 1 cBeta
      (List.reverse_perm _) rfl).2 "fetch failed" rfl

/-- C3 evidence: with equal system-time counters (`systemDelta = 0`) the code
returns `+Inf`, not `0.0` — `calculateCPUPercentage` divides without any
guard on a zero system delta, so `cpuPercentage(20,10,100,100,4)` is the
division-by-zero value `(20-10)/0 * 4 * 100 = +Inf`. -/
theorem cpuPercentage_zero_system_delta :
    cpuPercentage 20 10 100 100 4 = GoFloat.inf true ∧
    cpuPercentage 20 10 100 100 4 ≠ GoFloat.fin 0 := by
  have h : cpuPercentage 20 10 100 100 4 = GoFloat.inf true := by
    norm_num [cpuPercentage, calculateCPUPercentage, GoFloat.sub, GoFloat.div, GoFloat.mul]
  refine ⟨h, ?_⟩
  rw [h]
  intro hcon
  cases hcon

/-- C4: with a nonzero system delta the calculator returns
`(cpuDelta / systemDelta) * perCoreCount * 100.0`, where the per-core count
falls back to the constant 7 exactly when the reported per-core list is
empty (so a reported count of 0 never multiplies by zero). -/
theorem cpuPercentage_formula (currentCPUTime previousCPUTime currentSystemTime
    previousSystemTime perCoreCount : ℕ)
    (h : currentSystemTime ≠ previousSystemTime) :
    cpuPercentage currentCPUTime previousCPUTime currentSystemTime previousSystemTime
        perCoreCount =
      GoFloat.fin (((currentCPUTime : ℚ) - (previousCPUTime : ℚ)) /
        ((currentSystemTime : ℚ) - (previousSystemTime : ℚ)) *
        (if perCoreCount = 0 then (7 : ℚ) else (perCoreCount : ℚ)) * 100) := by
  have hδ : ((currentSystemTime : ℚ) - (previousSystemTime : ℚ)) ≠ 0 := by
    intro h0
    apply h
    have := sub_eq_zero.mp h0
    exact_mod_cast this
  unfold cpuPercentage calculateCPUPercentage
  simp only [List.length_replicate, GoFloat.sub, GoFloat.div, if_neg hδ, GoFloat.mul]
  by_cases hp : perCoreCount = 0
  · simp [hp]
  · simp [hp]

/-- Evaluated check of `cpuPercentage_formula`: the spec's worked example
`cpuPercentage(20,10,200,100,4) = 40.0`, and the fallback at a reported
per-core count of 0. -/
theorem cpuPercentage_formula_check :
    cpuPercentage 20 10 200 100 4 = GoFloat.fin 40 ∧
    cpuPercentage 20 10 200 100 0 = GoFloat.fin 70 := by
  constructor
  · rw [cpuPercentage_formula 20 10 200 100 4 (by omega)]
    norm_num
  · rw [cpuPercentage_formula 20 10 200 100 0 (by omega)]
    norm_num

/-- C7: the decoder converts memory usage and limit from bytes to MB by
dividing by 1024 twice, i.e. by 1,048,576, with no clamping of the resulting
value; on the fixture snapshot a usage of 1048576 bytes decodes to exactly
1.0 MB. -/
theorem decode_memory_mib (resp : StatsResponse) :
    (decodeStats resp).MemoryUsage =
      GoFloat.fin ((resp.MemoryStats.Usage : ℚ) / 1048576) ∧
    (decodeStats resp).MemoryLimit =
      GoFloat.fin ((resp.MemoryStats.Limit : ℚ) / 1048576) ∧
    (decodeStats exResp).MemoryUsage = GoFloat.fin 1 := by
  refine ⟨?_, ?_, ?_⟩
  · show GoFloat.div (GoFloat.div (.fin (resp.MemoryStats.Usage : ℚ)) (.fin 1024))
        (.fin 1024) = _
    norm_num [GoFloat.div]
    ring
  · show GoFloat.div (GoFloat.div (.fin (resp.MemoryStats.Limit : ℚ)) (.fin 1024))
        (.fin 1024) = _
    norm_num [GoFloat.div]
    ring
  · show GoFloat.div (GoFloat.div (.fin ((1048576 : ℕ) : ℚ)) (.fin 1024)) (.fin 1024) =
        GoFloat.fin 1
    norm_num [GoFloat.div]

/-- Evaluated check of `decode_memory_mib` on the fixture snapshot: 4 MiB of
memory limit decode to 4.0 MB. -/
theorem decode_memory_mib_check :
    (decodeStats exResp).MemoryLimit = GoFloat.fin 4 := by
  have h := (decode_memory_mib exResp).2.1
  rw [h]
  norm_num [exResp]

/-- C8: when the network-counter map has no `"eth0"` key the decoder produces
0 for both network fields and no error (Go map indexing yields the zero
value); when the key is present the interface's byte counters are divided by
1,048,576. -/
theorem decode_network_eth0 (resp : StatsResponse) :
    (resp.Networks.find? (fun p => p.1 == "eth0") = none →
      (decodeStats resp).NetworkRx = GoFloat.fin 0 ∧
      (decodeStats resp).NetworkTx = GoFloat.fin 0) ∧
    (∀ p : String × NetworkStats, resp.Networks.find? (fun q => q.1 == "eth0") = some p →
      (decodeStats resp).NetworkRx = GoFloat.fin ((p.2.RxBytes : ℚ) / 1048576) ∧
      (decodeStats resp).NetworkTx = GoFloat.fin ((p.2.TxBytes : ℚ) / 1048576)) := by
  constructor
  · intro hnone
    constructor
    · show GoFloat.div (GoFloat.div
          (.fin ((lookupNetwork resp.Networks "eth0").RxBytes : ℚ)) (.fin 1024))
          (.fin 1024) = _
      unfold lookupNetwork
      rw [hnone]
      norm_num [GoFloat.div]
    · show GoFloat.div (GoFloat.div
          (.fin ((lookupNetwork resp.Networks "eth0").TxBytes : ℚ)) (.fin 1024))
          (.fin 1024) = _
      unfold lookupNetwork
      rw [hnone]
      norm_num [GoFloat.div]
  · intro p hp
    constructor
    · show GoFloat.div (GoFloat.div
          (.fin ((lookupNetwork resp.Networks "eth0").RxBytes : ℚ)) (.fin 1024))
          (.fin 1024) = _
      unfold lookupNetwork
      rw [hp]
      norm_num [GoFloat.div]
      ring
    · show GoFloat.div (GoFloat.div
          (.fin ((lookupNetwork resp.Networks "eth0").TxBytes : ℚ)) (.fin 1024))
          (.fin 1024) = _
      unfold lookupNetwork
      rw [hp]
      norm_num [GoFloat.div]
      ring

/-- Evaluated check of `decode_network_eth0`: the `eth0`-less fixture decodes
to 0/0, and the fixture with `eth0` decodes its 2 MiB / 3 MiB counters. -/
theorem decode_network_eth0_check :
    (decodeStats exRespNoEth).NetworkRx = GoFloat.fin 0 ∧
    (decodeStats exResp).NetworkRx = GoFloat.fin 2 ∧
    (decodeStats exResp).NetworkTx = GoFloat.fin 3 := by
  refine ⟨((decode_network_eth0 exRespNoEth).1 rfl).1, ?_, ?_⟩
  · have := ((decode_network_eth0 exResp).2
      ("eth0", { RxBytes := 2097152, TxBytes := 3145728 }) rfl).1
    rw [this]
    norm_num
  · have := ((decode_network_eth0 exResp).2
      ("eth0", { RxBytes := 2097152, TxBytes := 3145728 }) rfl).2
    rw [this]
    norm_num

/-- C5 evidence: a poll cycle whose batch contains the zero-value slot left by
a failed fetch does NOT render without fault.  On the fixture batch (slot 1 is
the zero value because `cBeta`'s fetch failed) both the horizontal and the
vertical renderer hit a panicking operation (`c.ID[:12]` on an empty
identifier, `c.Names[0]` on an empty name list) and the render step aborts
(`none`), while the same batch with every fetch succeeding renders fine. -/
theorem renderBatch_zero_slot_panics :
    (FetchContainerStatsParallel exFetch exContainers
        (fetchMessages exFetch exContainers))[1]? = some default ∧
    renderBatch false (FetchContainerStatsParallel exFetch exContainers
        (fetchMessages exFetch exContainers)) = none ∧
    renderBatch true (FetchContainerStatsParallel exFetch exContainers
        (fetchMessages exFetch exContainers)) = none ∧
    (renderBatch false (FetchContainerStatsParallel exFetchOk exContainers
        (fetchMessages exFetchOk exContainers))).isSome = true := by
  exact ⟨rfl, rfl, rfl, rfl⟩

/-- C6 counterexample: the specifier `"abc1"` is the full identifier of the
listed container `cPreB`, yet `FindContainer` resolves it to the
earlier-listed `cPreA` (whose identifier `"abc12"` also has `"abc1"` as a
prefix), not to `cPreB` itself. -/
theorem findContainer_full_id_counterexample :
    cPreB ∈ [cPreA, cPreB] ∧ "abc1" = cPreB.ID ∧
    FindContainer [cPreA, cPreB] "abc1" = Except.ok cPreA ∧ cPreA ≠ cPreB := by
  refine ⟨by decide, rfl, rfl, by decide⟩

/-- C6 (amended): a specifier that is a container's full identifier, an
identifier prefix, a stored name, or a name less its leading `"/"` resolves
to that container provided no earlier-listed container also matches the
specifier; a specifier matching no listed container yields the not-found
error. -/
theorem findContainer_resolution (containers : List Container) (spec : String)
    (i : ℕ) (c : Container) :
    (containers[i]? = some c →
      (spec = c.ID ∨ goHasPre c.ID spec = true ∨ spec ∈ c.Names ∨
        ("/" ++ spec) ∈ c.Names) →
      (∀ (j : ℕ) (cj : Container), j < i → containers[j]? = some cj →
        matchesSpecifier spec cj = false) →
      FindContainer containers spec = Except.ok c) ∧
    ((∀ cj ∈ containers, matchesSpecifier spec cj = false) →
      FindContainer containers spec = Except.error ("container not found: " ++ spec)) := by
  constructor
  · intro hc hform hfirst
    rw [findContainer_eq_find?]
    have hmatch : matchesSpecifier spec c = true := by
      rcases hform with h | h | h | h
      · subst h
        simp [matchesSpecifier, goHasPre, List.isPrefixOf_iff_prefix]
      · simp [matchesSpecifier, h]
      · simp only [matchesSpecifier, Bool.or_eq_true, List.any_eq_true, beq_iff_eq]
        exact Or.inr ⟨spec, h, Or.inl rfl⟩
      · simp only [matchesSpecifier, Bool.or_eq_true, List.any_eq_true, beq_iff_eq]
        exact Or.inr ⟨"/" ++ spec, h, Or.inr rfl⟩
    rw [find?_at_first_match containers i c hc hmatch hfirst]
  · intro hall
    rw [findContainer_eq_find?,
      List.find?_eq_none.mpr (fun x hx => by simp [hall x hx])]

/-- Evaluated check of `findContainer_resolution`: the name form `"/alpha"`
resolves to the first-listed `cAlpha`, and an unmatched specifier yields the
not-found error. -/
theorem findContainer_resolution_check :
    FindContainer exContainers "/alpha" = Except.ok cAlpha ∧
    FindContainer exContainers "zzz" = Except.error ("container not found: " ++ "zzz") := by
  constructor
  · exact (findContainer_resolution exContainers "/alpha" 0 cAlpha).1 rfl
      (Or.inr (Or.inr (Or.inl (by decide))))
      (fun j cj hj _ => absurd hj (Nat.not_lt_zero j))
  · exact (findContainer_resolution exContainers "zzz" 0 cAlpha).2 (by decide)

/-- C10: `FindContainer` is first-match search over the full listing in
listing order (the listing is requested with `All: true`, so stopped
containers are included), and the empty specifier — a prefix of every
identifier — resolves to the first listed container instead of returning the
not-found error. -/
theorem findContainer_scan_semantics (containers : List Container) (spec : String) :
    (FindContainer containers spec =
      match containers.find? (fun c => matchesSpecifier spec c) with
      | some c => Except.ok c
      | none => Except.error ("container not found: " ++ spec)) ∧
    (∀ (c : Container) (rest : List Container), containers = c :: rest →
      FindContainer containers "" = Except.ok c) ∧
    findContainerListOptions.All = true := by
  refine ⟨findContainer_eq_find? containers spec, ?_, rfl⟩
  rintro c rest rfl
  show FindContainer (c :: rest) "" = Except.ok c
  unfold FindContainer
  rw [if_pos (goHasPre_empty c.ID)]

/-- Evaluated check of `findContainer_scan_semantics`: the first-match
characterisation on the shared-prefix pair (the earlier of the two matching
containers wins) and the empty-specifier behaviour on the fixture listing. -/
theorem findContainer_scan_semantics_check :
    FindContainer [cPreA, cPreB] "abc1" = Except.ok cPreA ∧
    FindContainer exContainers "" = Except.ok cAlpha := by
  constructor
  · rw [(findContainer_scan_semantics [cPreA, cPreB] "abc1").1]
    rfl
  · exact (findContainer_scan_semantics exContainers "").2.1 cAlpha [cBeta, cGamma] rfl

end DockerMonitor
